import Mathlib

/- Verification of the dbcat metadata catalog against its specification.

   The definitions below are a shallow embedding of the program:
   `dbcat/api.py` (spec parser, import/export validator, catalog
   connection selection) and `dbcat/cli.py` (table search).  Python
   dictionaries from the JSON wire format are embedded as association
   lists over `PyVal`.  The repository layer (`dbcat.catalog.Catalog`),
   whose sources are not part of this tree, is modelled from the spec;
   every such definition carries a doc comment starting with
   `Modelled from the spec:`. -/

namespace Dbcat

/- ===== Python strings ===== -/

/-- Embedding of Python `str.split(sep)` over the character list: splits at
every occurrence of the separator, keeping empty segments, so that the empty
string yields a single empty segment. -/
def pySplitAux (sep : Char) : List Char → List Char → List (List Char)
  | [], acc => [acc.reverse]
  | c :: rest, acc =>
    if c = sep then acc.reverse :: pySplitAux sep rest []
    else pySplitAux sep rest (c :: acc)

/-- Python `s.split(sep)` for a one-character separator. -/
def pySplit (s : String) (sep : Char) : List String :=
  (pySplitAux sep s.data []).map (fun cs => ⟨cs⟩)

/-- Python `s.lower()`. -/
def strLower (s : String) : String := ⟨s.data.map Char.toLower⟩

/-- Case-insensitive string equality, the normalization used by catalog
lookups. -/
def ciEq (a b : String) : Bool := strLower a == strLower b

/-- Wraps a string in single quotes, as the Python format strings in the
validation error messages do. -/
def pyQuote (s : String) : String := "\x27" ++ s ++ "\x27"

/- ===== Python values of the import/export wire format ===== -/

/-- A scalar JSON value inside a nested stanza of an import record. -/
inductive PyLeaf where
  | str (s : String)
  | int (n : Int)
deriving DecidableEq

/-- A JSON value in a top-level field of an import record: a scalar or a
one-level dictionary (the `source` / `target` stanza shape of the wire
format). -/
inductive PyVal where
  | str (s : String)
  | int (n : Int)
  | dict (entries : List (String × PyLeaf))
deriving DecidableEq

/-- An import/export record: a Python dictionary with string keys. -/
abbrev Obj := List (String × PyVal)

def PyLeaf.toVal : PyLeaf → PyVal
  | .str s => .str s
  | .int n => .int n

/-- Python `obj[k]` / `k in obj` lookup on a record. -/
def Obj.get? (o : Obj) (k : String) : Option PyVal :=
  o.lookup k

/-- Rendering of a value inside a Python format string, `"{}".format(v)`.
Only string and integer values reach the messages stated by the spec. -/
def PyLeaf.pyFormat : PyLeaf → String
  | .str s => s
  | .int n => toString n

def PyVal.pyFormat : PyVal → String
  | .str s => s
  | .int n => toString n
  | .dict _ => "dict"

/-- Python `==` on wire values: dictionary equality compares key lookups and
ignores entry order. -/
def leafDictEq (a b : List (String × PyLeaf)) : Bool :=
  a.all (fun kv => b.lookup kv.1 == a.lookup kv.1) &&
    b.all (fun kv => a.lookup kv.1 == b.lookup kv.1)

def PyVal.pyEq : PyVal → PyVal → Bool
  | .str a, .str b => a == b
  | .int a, .int b => a == b
  | .dict a, .dict b => leafDictEq a b
  | _, _ => false

/- ===== Errors ===== -/

/-- Exceptions the embedded code can raise. -/
inductive PyError where
  | integrityError (msg : String)
  | valueError (msg : String)
  | keyError (key : String)
  | noResultFound
  | constraintViolation (msg : String)
  | notImplementedError (msg : String)
  | attributeError (msg : String)
  | typeError (msg : String)
deriving DecidableEq

instance instDecEqExcept {ε α : Type} [DecidableEq ε] [DecidableEq α] :
    DecidableEq (Except ε α)
  | .error e₁, .error e₂ =>
    if h : e₁ = e₂ then .isTrue (by rw [h])
    else .isFalse (fun q => by cases q; exact h rfl)
  | .error _, .ok _ => .isFalse (fun q => by cases q)
  | .ok _, .error _ => .isFalse (fun q => by cases q)
  | .ok a₁, .ok a₂ =>
    if h : a₁ = a₂ then .isTrue (by rw [h])
    else .isFalse (fun q => by cases q; exact h rfl)

def fromOpt {α : Type} (o : Option α) (e : PyError) : Except PyError α :=
  match o with
  | some a => .ok a
  | none => .error e

/- ===== The catalog repository =====

   The repository layer (`dbcat.catalog.Catalog` and the entity models) is
   not among the sources; it is modelled from the spec.  Entities are kept
   flat, addressed by their fully-qualified names, which the spec names as
   the stable external addressing unit. -/

/-- A column entity, carried with its fully-qualified name components and
the caller-supplied type and ordering attributes. -/
structure CatColumn where
  database : String
  schema : String
  table : String
  column : String
  data_type : PyVal
  sort_order : PyVal
deriving DecidableEq

/-- A fully-qualified column name: (source, schema, table, column). -/
abbrev Fqdn := String × String × String × String

def CatColumn.fqdn (c : CatColumn) : Fqdn :=
  (c.database, c.schema, c.table, c.column)

/-- A foreign key: an ordered pair of column references, kept here by the
columns' fully-qualified names. -/
structure CatForeignKey where
  source : Fqdn
  target : Fqdn
deriving DecidableEq

/-- The catalog state: the entity hierarchy flattened into name tuples. -/
structure Catalog where
  sources : List String
  schemas : List (String × String)
  tables : List (String × String × String)
  columns : List CatColumn
  fks : List CatForeignKey
deriving DecidableEq

/-- Modelled from the spec: lookups normalize case, so a wire value in a
name position matches a stored name when it is a string equal up to case. -/
def matchesName (v : PyVal) (stored : String) : Bool :=
  match v with
  | .str s => ciEq s stored
  | _ => false

/-- Modelled from the spec: `get_source`, a case-insensitive exact lookup
returning the stored source name. -/
def Catalog.get_source (c : Catalog) (database : PyVal) : Option String :=
  c.sources.find? (fun n => matchesName database n)

/-- Modelled from the spec: `get_schema`, a case-insensitive exact lookup
returning the stored (source, schema) pair. -/
def Catalog.get_schema (c : Catalog) (database schema : PyVal) :
    Option (String × String) :=
  c.schemas.find? (fun p => matchesName database p.1 && matchesName schema p.2)

/-- Modelled from the spec: `get_table`, a case-insensitive exact lookup
returning the stored (source, schema, table) triple. -/
def Catalog.get_table (c : Catalog) (database schema table : PyVal) :
    Option (String × String × String) :=
  c.tables.find? (fun t =>
    matchesName database t.1 && matchesName schema t.2.1 && matchesName table t.2.2)

/-- Modelled from the spec: `get_column`, the 4-level case-insensitive
resolution of a column by its fully-qualified name. -/
def Catalog.get_column (c : Catalog) (database schema table column : PyVal) :
    Option CatColumn :=
  c.columns.find? (fun col =>
    matchesName database col.database && matchesName schema col.schema &&
      matchesName table col.table && matchesName column col.column)

/-- Modelled from the spec: `add_schema` appends the new schema under its
resolved source and fails with ConstraintViolation when the
(parent, name) pair already exists case-insensitively. -/
def Catalog.add_schema (c : Catalog) (schema : String) (sourceName : String) :
    Except PyError Catalog :=
  if c.schemas.any (fun p => p.1 == sourceName && ciEq p.2 schema) then
    .error (.constraintViolation ("schema " ++ schema ++ " already exists"))
  else
    .ok { c with schemas := c.schemas ++ [(sourceName, schema)] }

/-- Modelled from the spec: `add_table`, with the same uniqueness rule
under the resolved schema. -/
def Catalog.add_table (c : Catalog) (table : String)
    (schemaEnt : String × String) : Except PyError Catalog :=
  if c.tables.any (fun t =>
      t.1 == schemaEnt.1 && t.2.1 == schemaEnt.2 && ciEq t.2.2 table) then
    .error (.constraintViolation ("table " ++ table ++ " already exists"))
  else
    .ok { c with tables := c.tables ++ [(schemaEnt.1, schemaEnt.2, table)] }

/-- Modelled from the spec: `add_column`, with the same uniqueness rule
under the resolved table; data_type and sort_order are caller-supplied and
stored untouched. -/
def Catalog.add_column (c : Catalog) (column : String)
    (data_type sort_order : PyVal) (tableEnt : String × String × String) :
    Except PyError Catalog :=
  if c.columns.any (fun col =>
      col.database == tableEnt.1 && col.schema == tableEnt.2.1 &&
        col.table == tableEnt.2.2 && ciEq col.column column) then
    .error (.constraintViolation ("column " ++ column ++ " already exists"))
  else
    .ok { c with columns := c.columns ++
      [{ database := tableEnt.1, schema := tableEnt.2.1, table := tableEnt.2.2,
         column := column, data_type := data_type, sort_order := sort_order }] }

/-- Modelled from the spec: `add_foreign_key` fails with
ConstraintViolation when the exact ordered pair already exists. -/
def Catalog.add_foreign_key (c : Catalog) (source target : CatColumn) :
    Except PyError Catalog :=
  if c.fks.contains { source := source.fqdn, target := target.fqdn } then
    .error (.constraintViolation "foreign key already exists")
  else
    .ok { c with fks := c.fks ++ [{ source := source.fqdn, target := target.fqdn }] }

/-- Modelled from the spec: `remove_foreign_key` removes the exact ordered
pair when present and is a no-op otherwise (the spec documents remove as
best-effort). -/
def Catalog.remove_foreign_key (c : Catalog) (source target : CatColumn) : Catalog :=
  { c with fks := c.fks.filter fun f =>
      !(f == { source := source.fqdn, target := target.fqdn }) }

/-- Modelled from the spec: `get_foreign_key`, an exact lookup by the two
fully-qualified 4-tuples, returning an empty result rather than raising. -/
def Catalog.get_foreign_key (c : Catalog)
    (sdb ssc stb scl tdb tsc ttb tcl : String) : Option CatForeignKey :=
  c.fks.find? (fun f =>
    f == { source := (sdb, ssc, stb, scl), target := (tdb, tsc, ttb, tcl) })

/- ===== The spec parser (api.parse_spec) ===== -/

/-- The `Spec` dataclass of `api.py`. -/
structure Spec where
  kind : String
  source : Option String
  schema : Option String
  table : Option String
  column : Option String
deriving DecidableEq

/-- Python `value or default` on optional strings: `None` and the empty
string are falsy and fall back to the default. -/
def pyOr (value dflt : Option String) : Option String :=
  match value with
  | none => dflt
  | some s => if s = "" then dflt else some s

def entity_names : List String := ["source", "schema", "table", "column"]

/-- Python `entity_names[len(parts) - 1]`.  A split never yields zero
segments, so the `n = 0` case is unreachable; Python would index `-1`,
i.e. the last element, there.  Counts above 4 are rejected before this
indexing happens. -/
def kindFromCount (n : Nat) : String :=
  if n = 0 then "column" else entity_names.getD (n - 1) ""

/-- One step of the `zip_longest(entity_names, parts, fillvalue=default)`
loop of `parse_spec`: position `i` takes the split segment when present and
the fill value otherwise, then applies `value or default`. -/
def specField (parts : List String) (dflt : Option String) (i : Nat) : Option String :=
  pyOr (match parts[i]? with | some p => some p | none => dflt) dflt

/-- Embedding of `api.parse_spec`. -/
def parse_spec (query_string : String) (default : Option String) : Except String Spec :=
  if (pySplit query_string ':').length > 4 then
    .error "too many entity components"
  else
    .ok { kind := kindFromCount (pySplit query_string ':').length,
          source := specField (pySplit query_string ':') default 0,
          schema := specField (pySplit query_string ':') default 1,
          table := specField (pySplit query_string ':') default 2,
          column := specField (pySplit query_string ':') default 3 }

/-- Claim-side restatement of the field rule of C4, written from the spec's
words: each field comes from the corresponding split segment, and an empty
segment or a position beyond the segment count falls back to the caller
default. -/
def fieldPerSpec (parts : List String) (dflt : Option String) (i : Nat) : Option String :=
  match parts[i]? with
  | some p => if p = "" then dflt else some p
  | none => dflt

/- ===== The import validator (api.validate_import_obj) ===== -/

/-- The stanza entries of a wire value.  The JSON wire format only carries
one-level dictionaries in the `source` / `target` positions; a non-dict
value there is outside the wire format (Python would raise TypeError on
the membership test) and is treated as carrying no fields. -/
def stanzaEntries : PyVal → List (String × PyLeaf)
  | .dict d => d
  | _ => []

/-- The missing-field errors collected by `_validate_column_stanza`, one
per absent name component. -/
def _validate_column_stanza_missing (stanza_name : String)
    (stanza : List (String × PyLeaf)) : List String :=
  (if (stanza.lookup "database").isNone then
      ["no " ++ pyQuote "database" ++ " field in " ++ pyQuote stanza_name] else []) ++
  (if (stanza.lookup "schema").isNone then
      ["no " ++ pyQuote "schema" ++ " field in " ++ pyQuote stanza_name] else []) ++
  (if (stanza.lookup "table").isNone then
      ["no " ++ pyQuote "table" ++ " field in " ++ pyQuote stanza_name] else []) ++
  (if (stanza.lookup "column").isNone then
      ["no " ++ pyQuote "column" ++ " field in " ++ pyQuote stanza_name] else [])

/-- Embedding of `api._validate_column_stanza`: collect one error per
missing name component, and only when all four are present resolve the
column, reporting it when it does not exist. -/
def _validate_column_stanza (catalog : Catalog) (stanza_name : String)
    (stanza : List (String × PyLeaf)) : List String :=
  let errors := _validate_column_stanza_missing stanza_name stanza
  if !errors.isEmpty then errors
  else
    match stanza.lookup "database", stanza.lookup "schema",
        stanza.lookup "table", stanza.lookup "column" with
    | some db, some sc, some tb, some cl =>
      (match catalog.get_column db.toVal sc.toVal tb.toVal cl.toVal with
       | some _ => []
       | none =>
         [pyQuote stanza_name ++ " column <" ++ db.pyFormat ++ ", " ++ sc.pyFormat ++
           ", " ++ tb.pyFormat ++ ", " ++ cl.pyFormat ++ "> does not exist"])
    | _, _, _, _ => []

/-- Embedding of `api._validate_foreign_key`. -/
def _validate_foreign_key (catalog : Catalog) (obj : Obj) : List String :=
  (match obj.get? "source" with
    | none => ["no " ++ pyQuote "source" ++ " field in foreign_key"]
    | some v => _validate_column_stanza catalog "source" (stanzaEntries v)) ++
  (match obj.get? "target" with
    | none => ["no " ++ pyQuote "target" ++ " field in foreign_key"]
    | some v => _validate_column_stanza catalog "target" (stanzaEntries v))

/-- The missing-field errors collected by `_validate_schema`. -/
def _validate_schema_missing (obj : Obj) : List String :=
  (if (obj.get? "database").isNone then ["no " ++ pyQuote "database" ++ " field"] else []) ++
  (if (obj.get? "schema").isNone then ["no " ++ pyQuote "schema" ++ " field"] else [])

/-- Embedding of `api._validate_schema`. -/
def _validate_schema (catalog : Catalog) (obj : Obj) : List String :=
  let errors := _validate_schema_missing obj
  if !errors.isEmpty then errors
  else
    match obj.get? "database", obj.get? "schema" with
    | some db, some sc =>
      (match catalog.get_schema db sc with
       | some _ =>
         ["schema <" ++ db.pyFormat ++ ", " ++ sc.pyFormat ++ "> is already defined"]
       | none => [])
    | _, _ => []

/-- The missing-field errors collected by `_validate_table`. -/
def _validate_table_missing (obj : Obj) : List String :=
  (if (obj.get? "database").isNone then ["no " ++ pyQuote "database" ++ " field"] else []) ++
  (if (obj.get? "schema").isNone then ["no " ++ pyQuote "schema" ++ " field"] else []) ++
  (if (obj.get? "table").isNone then ["no " ++ pyQuote "table" ++ " field"] else [])

/-- Embedding of `api._validate_table`. -/
def _validate_table (catalog : Catalog) (obj : Obj) : List String :=
  let errors := _validate_table_missing obj
  if !errors.isEmpty then errors
  else
    match obj.get? "database", obj.get? "schema", obj.get? "table" with
    | some db, some sc, some tb =>
      (match catalog.get_table db sc tb with
       | some _ =>
         ["table <" ++ db.pyFormat ++ ", " ++ sc.pyFormat ++ ", " ++ tb.pyFormat ++
           "> is already defined"]
       | none => [])
    | _, _, _ => []

/-- The missing-field errors collected by `_validate_column`, one per
absent required field. -/
def _validate_column_missing (obj : Obj) : List String :=
  (if (obj.get? "database").isNone then ["no " ++ pyQuote "database" ++ " field"] else []) ++
  (if (obj.get? "schema").isNone then ["no " ++ pyQuote "schema" ++ " field"] else []) ++
  (if (obj.get? "table").isNone then ["no " ++ pyQuote "table" ++ " field"] else []) ++
  (if (obj.get? "column").isNone then ["no " ++ pyQuote "column" ++ " field"] else []) ++
  (if (obj.get? "data_type").isNone then ["no " ++ pyQuote "data_type" ++ " field"] else []) ++
  (if (obj.get? "sort_order").isNone then ["no " ++ pyQuote "sort_order" ++ " field"] else [])

/-- Embedding of `api._validate_column`. -/
def _validate_column (catalog : Catalog) (obj : Obj) : List String :=
  let errors := _validate_column_missing obj
  if !errors.isEmpty then errors
  else
    match obj.get? "database", obj.get? "schema", obj.get? "table", obj.get? "column" with
    | some db, some sc, some tb, some cl =>
      (match catalog.get_column db sc tb cl with
       | some _ =>
         ["column <" ++ db.pyFormat ++ ", " ++ sc.pyFormat ++ ", " ++ tb.pyFormat ++
           ", " ++ cl.pyFormat ++ "> is already defined"]
       | none => [])
    | _, _, _, _ => []

/-- Embedding of `api.validate_import_obj`: dispatch on the record's
`type` tag. -/
def validate_import_obj (catalog : Catalog) (obj : Obj) : List String :=
  match obj.get? "type" with
  | none => ["no " ++ pyQuote "type" ++ " field in object"]
  | some t =>
    if t = .str "foreign_key" then _validate_foreign_key catalog obj
    else if t = .str "schema" then _validate_schema catalog obj
    else if t = .str "table" then _validate_table catalog obj
    else if t = .str "column" then _validate_column catalog obj
    else ["unknown type " ++ pyQuote t.pyFormat]

/- ===== The import consumer (api.consume_import_obj) ===== -/

/-- The `Action` enum of `api.py`; a `str`-mixin Enum with values "add"
and "remove". -/
inductive Action where
  | add
  | remove
deriving DecidableEq

/-- The member value, `action.value` in Python. -/
def Action.value : Action → String
  | .add => "add"
  | .remove => "remove"

/-- Python renders `str(Action.add)` for this `str`-mixin Enum through
`Enum.__str__`, which yields the class-qualified member name, not the
member value. -/
def Action.pyStr : Action → String
  | .add => "Action.add"
  | .remove => "Action.remove"

/-- Python `Action(value)`: an enum call resolves its argument by member
value ("add" / "remove"); any other argument raises ValueError. -/
def Action.ofVal? : PyVal → Option Action
  | .str "add" => some .add
  | .str "remove" => some .remove
  | _ => none

/-- Python `obj[stanza][key]` on a record: KeyError when either key is
absent. -/
def stanzaField (obj : Obj) (stanza key : String) : Except PyError PyVal :=
  match obj.get? stanza with
  | some (.dict entries) =>
    (match entries.lookup key with
     | some leaf => .ok leaf.toVal
     | none => .error (.keyError key))
  | some _ => .error (.typeError ("value of " ++ pyQuote stanza ++ " is not subscriptable"))
  | none => .error (.keyError stanza)

/-- Python `obj[key]` on a record: KeyError when absent. -/
def objField (obj : Obj) (key : String) : Except PyError PyVal :=
  fromOpt (obj.get? key) (.keyError key)

/-- Entity names are strings; the repository stores them as such. -/
def PyVal.asName : PyVal → Except PyError String
  | .str s => .ok s
  | _ => .error (.typeError "entity names are strings")

/-- Exception-propagating sequencing, Python's implicit control flow:
evaluate the step and feed its value on, or propagate the raised error. -/
def pyBind {α β : Type} (x : Except PyError α) (f : α → Except PyError β) :
    Except PyError β :=
  match x with
  | .ok a => f a
  | .error e => .error e

/-- Embedding of `api.consume_import_obj`.  The returned catalog is the
state after the record's single mutation; an error leaves the state
untouched (every branch performs reads followed by at most one
mutation). -/
def consume_import_obj (catalog : Catalog) (obj : Obj) : Except PyError Catalog :=
  match obj.get? "type" with
  | none => .error (.keyError "type")
  | some t =>
    if t = .str "foreign_key" then
      pyBind (stanzaField obj "source" "database") fun sdb =>
      pyBind (stanzaField obj "source" "schema") fun ssc =>
      pyBind (stanzaField obj "source" "table") fun stb =>
      pyBind (stanzaField obj "source" "column") fun scl =>
      pyBind (fromOpt (catalog.get_column sdb ssc stb scl) .noResultFound) fun source_column =>
      pyBind (stanzaField obj "target" "database") fun tdb =>
      pyBind (stanzaField obj "target" "schema") fun tsc =>
      pyBind (stanzaField obj "target" "table") fun ttb =>
      pyBind (stanzaField obj "target" "column") fun tcl =>
      pyBind (fromOpt (catalog.get_column tdb tsc ttb tcl) .noResultFound) fun target_column =>
      match Action.ofVal? ((obj.get? "action").getD (.str (Action.pyStr .add))) with
      | some .add => catalog.add_foreign_key source_column target_column
      | some .remove => .ok (catalog.remove_foreign_key source_column target_column)
      | none =>
        .error (.valueError
          (pyQuote ((obj.get? "action").getD (.str (Action.pyStr .add))).pyFormat ++
            " is not a valid Action"))
    else if t = .str "schema" then
      pyBind (objField obj "database") fun db =>
      pyBind (fromOpt (catalog.get_source db) .noResultFound) fun source =>
      pyBind (objField obj "schema") fun scv =>
      pyBind scv.asName fun sc =>
      catalog.add_schema sc source
    else if t = .str "table" then
      pyBind (objField obj "database") fun db =>
      pyBind (objField obj "schema") fun scv =>
      pyBind (fromOpt (catalog.get_schema db scv) .noResultFound) fun schemaEnt =>
      pyBind (objField obj "table") fun tbv =>
      pyBind tbv.asName fun tb =>
      catalog.add_table tb schemaEnt
    else if t = .str "column" then
      pyBind (objField obj "database") fun db =>
      pyBind (objField obj "schema") fun scv =>
      pyBind (objField obj "table") fun tbv =>
      pyBind (fromOpt (catalog.get_table db scv tbv) .noResultFound) fun tableEnt =>
      pyBind (objField obj "column") fun clv =>
      pyBind clv.asName fun cl =>
      pyBind (objField obj "data_type") fun dt =>
      pyBind (objField obj "sort_order") fun so =>
      catalog.add_column cl dt so tableEnt
    else .error (.valueError "cannot determine object type")

/- ===== The import stream (api.import_from_object_stream) ===== -/

/-- One logger call of `import_from_object_stream`. -/
inductive LogEvent where
  | cannotImport (i : Nat)
  | contents (o : Obj)
  | validationError (e : String)
deriving DecidableEq

/-- The observable outcome of an import run: the log, the catalog state
when control returns (mutations already applied persist even when an
exception aborts the stream), and the exception if one was raised. -/
structure ImportResult where
  log : List LogEvent
  catalog : Catalog
  error : Option PyError
deriving DecidableEq

/-- The loop of `api.import_from_object_stream`, carried with the running
`enumerate` index: validate each record, abort with IntegrityError after
logging every validation error, otherwise apply it and continue. -/
def importObjsFrom (catalog : Catalog) (i : Nat) : List Obj → ImportResult
  | [] => ⟨[], catalog, none⟩
  | obj :: rest =>
    let errors := validate_import_obj catalog obj
    if errors.isEmpty then
      match consume_import_obj catalog obj with
      | .error e => ⟨[], catalog, some e⟩
      | .ok c2 => importObjsFrom c2 (i + 1) rest
    else
      ⟨[.cannotImport i, .contents obj] ++ errors.map .validationError,
       catalog,
       some (.integrityError ("import item " ++ toString i ++ " as errors"))⟩

/-- Embedding of `api.import_from_object_stream`. -/
def import_from_object_stream (catalog : Catalog) (stream : List Obj) : ImportResult :=
  importObjsFrom catalog 0 stream

/-- The state reached by validating and applying every record of a list in
order: `some` when each record validated empty and applied successfully,
`none` otherwise.  This is the claim's "records are validated then applied
via consume_import_obj". -/
def validChain (catalog : Catalog) : List Obj → Option Catalog
  | [] => some catalog
  | obj :: rest =>
    if (validate_import_obj catalog obj).isEmpty then
      match consume_import_obj catalog obj with
      | .ok c2 => validChain c2 rest
      | .error _ => none
    else none

/- ===== Export (api.export_format) ===== -/

/-- The entity kinds an export can be asked for; `export_format` tests
`isinstance(obj, CatForeignKey)`. -/
inductive CatObject where
  | fk (f : CatForeignKey)
  | sourceEnt (name : String)
  | schemaEnt (e : String × String)
  | tableEnt (e : String × String × String)
  | columnEnt (col : CatColumn)
deriving DecidableEq

def CatObject.typeName : CatObject → String
  | .fk _ => "CatForeignKey"
  | .sourceEnt _ => "CatSource"
  | .schemaEnt _ => "CatSchema"
  | .tableEnt _ => "CatTable"
  | .columnEnt _ => "CatColumn"

def CatObject.isFk : CatObject → Bool
  | .fk _ => true
  | _ => false

/-- The four-field stanza built from a column's fully-qualified name,
`obj.source.table.schema.source.name` etc. in the ORM graph. -/
def fqdnStanza (f : Fqdn) : PyVal :=
  .dict [("database", .str f.1), ("schema", .str f.2.1),
         ("table", .str f.2.2.1), ("column", .str f.2.2.2)]

/-- The `attach_action` helper of `export_format`: both Action members are
truthy strings, so the key is attached exactly when an action is passed. -/
def attach_action (o : Obj) (action : Option Action) : Obj :=
  match action with
  | some a => o ++ [("action", .str a.value)]
  | none => o

/-- Embedding of `api.export_format`. -/
def export_format (obj : CatObject) (action : Option Action) : Except PyError Obj :=
  match obj with
  | .fk f =>
    .ok (attach_action
      [("type", .str "foreign_key"),
       ("source", fqdnStanza f.source),
       ("target", fqdnStanza f.target)] action)
  | other =>
    .error (.notImplementedError
      ("the object type " ++ other.typeName ++ " has not been handled yet"))

/- ===== Search (cli.search_tables over Catalog.search_column) ===== -/

/-- SQL LIKE matching with explicit fuel so the recursion is structural:
`%` matches any run, `_` any single character, anything else itself.  The
fuel strictly exceeds the pattern and subject lengths, which bounds the
recursion depth, so the zero-fuel case is unreachable. -/
def likeMatchesFuel : Nat → List Char → List Char → Bool
  | 0, _, _ => false
  | _ + 1, [], s => s.isEmpty
  | f + 1, '%' :: ps, [] => likeMatchesFuel f ps []
  | f + 1, '%' :: ps, c :: s =>
    likeMatchesFuel f ps (c :: s) || likeMatchesFuel f ('%' :: ps) s
  | _ + 1, '_' :: _, [] => false
  | f + 1, '_' :: ps, _ :: s => likeMatchesFuel f ps s
  | _ + 1, _ :: _, [] => false
  | f + 1, p :: ps, c :: s => (p == c) && likeMatchesFuel f ps s

/-- Modelled from the spec: case-insensitive SQL LIKE pattern matching. -/
def likeMatch (pattern s : String) : Bool :=
  likeMatchesFuel ((strLower pattern).data.length + (strLower s).data.length + 1)
    (strLower pattern).data (strLower s).data

/-- Modelled from the spec: `search_column` matches the four patterns
case-insensitively against each column's fully-qualified name components
simultaneously. -/
def Catalog.search_column (c : Catalog)
    (column_pat table_pat schema_pat source_pat : String) : List CatColumn :=
  c.columns.filter fun col =>
    likeMatch source_pat col.database && likeMatch schema_pat col.schema &&
      likeMatch table_pat col.table && likeMatch column_pat col.column

/-- Insertion step of the sort modelling Python `sorted`. -/
def insertBy {α : Type} (le : α → α → Bool) (a : α) : List α → List α
  | [] => [a]
  | b :: l => if le a b then a :: b :: l else b :: insertBy le a l

/-- Insertion sort modelling Python `sorted` (any stable sort agrees on a
total order). -/
def sortBy {α : Type} (le : α → α → Bool) : List α → List α
  | [] => []
  | a :: l => insertBy le a (sortBy le l)

/-- The distinct elements of a list, modelling the Python `set` built by
`search_tables` (membership is all that survives the subsequent sort). -/
def distinct {α : Type} [DecidableEq α] : List α → List α
  | [] => []
  | a :: l => if a ∈ l then distinct l else a :: distinct l

/-- Lexicographic comparison of character lists, Python's string
ordering. -/
def charListLt : List Char → List Char → Bool
  | [], [] => false
  | [], _ :: _ => true
  | _ :: _, [] => false
  | a :: as, b :: bs => if a = b then charListLt as bs else decide (a < b)

def strLt (a b : String) : Bool := charListLt a.data b.data

def strLe (a b : String) : Bool := strLt a b || a == b

/-- Python tuple ordering on (source, schema, table) triples. -/
def tripleLe (a b : String × String × String) : Bool :=
  if a.1 ≠ b.1 then strLt a.1 b.1
  else if a.2.1 ≠ b.2.1 then strLt a.2.1 b.2.1
  else strLe a.2.2 b.2.2

/-- Embedding of the body of `cli.search_tables`: collect the distinct
(source, schema, table) triples of the matching columns into a set and
emit them sorted. -/
def search_tables (catalog : Catalog)
    (column_pat table_pat schema_pat source_pat : String) :
    List (String × String × String) :=
  sortBy tripleLe (distinct
    (((catalog.search_column column_pat table_pat schema_pat source_pat)).map
      fun col => (col.database, col.schema, col.table)))

/- ===== Catalog connection selection (api.catalog_connection) ===== -/

/-- The two catalog backends `catalog_connection` can return. -/
inductive CatalogBackend where
  | pg (host : String) (port : Option Int) (user password database : String)
  | sqlite (path : String)
deriving DecidableEq

/-- Embedding of `api.catalog_connection`: a PostgreSQL catalog when host,
user, password and database are all given, else a SQLite catalog when a
path is given, else AttributeError.  The secret only sets module state. -/
def catalog_connection (secret : String) (path : Option String)
    (host : Option String) (port : Option Int)
    (user password database : Option String) : Except PyError CatalogBackend :=
  match host, user, password, database with
  | some h, some u, some pw, some db => .ok (.pg h port u pw db)
  | _, _, _, _ =>
    match path with
    | some p => .ok (.sqlite p)
    | none =>
      .error (.attributeError
        "None of Path or Postgres connection parameters are provided")

/- ===== Concrete fixtures =====

   The scenario of the importer tests: a sqlite source `s1` with schema
   `sc1`, tables `t1` and `t2`, and columns `t1.c1` and `t2.t1c1`. -/

def cat0 : Catalog := ⟨[], [], [], [], []⟩

def col_t1_c1 : CatColumn :=
  { database := "s1", schema := "sc1", table := "t1", column := "c1",
    data_type := .str "Int", sort_order := .int 0 }

def col_t2_t1c1 : CatColumn :=
  { database := "s1", schema := "sc1", table := "t2", column := "t1c1",
    data_type := .str "Int", sort_order := .int 1 }

def catTest : Catalog :=
  { sources := ["s1"],
    schemas := [("s1", "sc1")],
    tables := [("s1", "sc1", "t1"), ("s1", "sc1", "t2")],
    columns := [col_t1_c1, col_t2_t1c1],
    fks := [] }

/-- The test catalog after adding the foreign key t2.t1c1 -> t1.c1. -/
def catTestFk : Catalog :=
  { catTest with fks := [{ source := col_t2_t1c1.fqdn, target := col_t1_c1.fqdn }] }

def fkStanzaSource : List (String × PyLeaf) :=
  [("database", .str "s1"), ("schema", .str "sc1"),
   ("table", .str "t2"), ("column", .str "t1c1")]

def fkStanzaTarget : List (String × PyLeaf) :=
  [("database", .str "s1"), ("schema", .str "sc1"),
   ("table", .str "t1"), ("column", .str "c1")]

/-- A valid foreign_key import record carrying no `action` field. -/
def fkRecordNoAction : Obj :=
  [("type", .str "foreign_key"),
   ("source", .dict fkStanzaSource),
   ("target", .dict fkStanzaTarget)]

def fkRecordAdd : Obj := fkRecordNoAction ++ [("action", .str "add")]

def fkRecordRemove : Obj := fkRecordNoAction ++ [("action", .str "remove")]

/-- The same record with the source database spelled `S1`: it still
validates (lookups are case-insensitive) and creates the same foreign key,
but its source stanza is not the one export reproduces. -/
def fkRecordUpper : Obj :=
  [("type", .str "foreign_key"),
   ("action", .str "add"),
   ("source", .dict [("database", .str "S1"), ("schema", .str "sc1"),
                     ("table", .str "t2"), ("column", .str "t1c1")]),
   ("target", .dict fkStanzaTarget)]

def schemaRecord (db sc : String) : Obj :=
  [("type", .str "schema"), ("database", .str db), ("schema", .str sc)]

/-- A record whose validation fails: a schema record with no fields. -/
def badSchemaRecord : Obj := [("type", .str "schema")]

/- ===== Theorems ===== -/

theorem pyOr_self (d : Option String) : pyOr d d = d := by
  cases d with
  | none => rfl
  | some s =>
    unfold pyOr
    split <;> simp_all

theorem specField_eq_fieldPerSpec (parts : List String) (d : Option String) (i : Nat) :
    specField parts d i = fieldPerSpec parts d i := by
  unfold specField fieldPerSpec
  cases parts[i]? with
  | none => exact pyOr_self d
  | some p => rfl

/-- C3: `parse_spec` errors exactly when the query string splits on `:` into
more than 4 segments; otherwise the returned kind is determined solely by
the segment count (1 source, 2 schema, 3 table, 4 column), the empty string
counting as a single empty segment and giving kind "source". -/
theorem parse_spec_error_iff_segments (s : String) (d : Option String) :
    ((pySplit s ':').length > 4 → parse_spec s d = .error "too many entity components")
    ∧ ((pySplit s ':').length ≤ 4 →
        ∃ sp, parse_spec s d = .ok sp
          ∧ ((pySplit s ':').length = 1 → sp.kind = "source")
          ∧ ((pySplit s ':').length = 2 → sp.kind = "schema")
          ∧ ((pySplit s ':').length = 3 → sp.kind = "table")
          ∧ ((pySplit s ':').length = 4 → sp.kind = "column"))
    ∧ (s = "" → (pySplit s ':').length = 1 ∧ parse_spec s d = .ok ⟨"source", d, d, d, d⟩) := by
  refine ⟨fun h => ?_, fun h => ?_, fun h => ?_⟩
  · unfold parse_spec
    rw [if_pos h]
  · refine ⟨{ kind := kindFromCount (pySplit s ':').length,
              source := specField (pySplit s ':') d 0,
              schema := specField (pySplit s ':') d 1,
              table := specField (pySplit s ':') d 2,
              column := specField (pySplit s ':') d 3 }, ?_, ?_, ?_, ?_, ?_⟩
    · unfold parse_spec
      rw [if_neg (by omega)]
    all_goals intro hn
    all_goals rw [show Spec.kind _ = kindFromCount (pySplit s ':').length from rfl, hn]
    all_goals decide
  · subst h
    have hsplit : pySplit "" ':' = [""] := by decide
    refine ⟨by decide, ?_⟩
    unfold parse_spec
    rw [hsplit, if_neg (by decide)]
    have h0 : specField [""] d 0 = d := (specField_eq_fieldPerSpec _ _ _).trans rfl
    have h1 : specField [""] d 1 = d := (specField_eq_fieldPerSpec _ _ _).trans rfl
    have h2 : specField [""] d 2 = d := (specField_eq_fieldPerSpec _ _ _).trans rfl
    have h3 : specField [""] d 3 = d := (specField_eq_fieldPerSpec _ _ _).trans rfl
    rw [h0, h1, h2, h3]
    rfl

theorem parse_spec_error_iff_segments_witness :
    parse_spec "a:b:c:d:e" none = .error "too many entity components" :=
  (parse_spec_error_iff_segments "a:b:c:d:e" none).1 (by decide)

/-- C4: on a string with at most 4 colon-separated segments, `parse_spec`
fills the four fields in order from the corresponding split segments, an
empty segment or a position beyond the segment count falling back to the
caller-supplied default; in particular the literal cases of the spec hold. -/
theorem parse_spec_fields_from_segments (s : String) (d : Option String)
    (h : (pySplit s ':').length ≤ 4) :
    parse_spec s d = .ok { kind := kindFromCount (pySplit s ':').length,
                           source := fieldPerSpec (pySplit s ':') d 0,
                           schema := fieldPerSpec (pySplit s ':') d 1,
                           table := fieldPerSpec (pySplit s ':') d 2,
                           column := fieldPerSpec (pySplit s ':') d 3 }
    ∧ parse_spec "" none = .ok ⟨"source", none, none, none, none⟩
    ∧ parse_spec "a:::d" none = .ok ⟨"column", some "a", none, none, some "d"⟩
    ∧ parse_spec "a:b" (some "%") = .ok ⟨"schema", some "a", some "b", some "%", some "%"⟩ := by
  refine ⟨?_, by decide, by decide, by decide⟩
  unfold parse_spec
  rw [if_neg (by omega)]
  rw [specField_eq_fieldPerSpec, specField_eq_fieldPerSpec,
    specField_eq_fieldPerSpec, specField_eq_fieldPerSpec]

theorem parse_spec_fields_from_segments_witness :
    parse_spec "a:b" (some "%") = .ok ⟨"schema", some "a", some "b", some "%", some "%"⟩ :=
  (parse_spec_fields_from_segments "a:b" (some "%") (by decide)).2.2.2


/-- C2: a valid foreign_key record with explicit action "add" calls
add_foreign_key and one with "remove" calls remove_foreign_key on the two
resolved columns, but a record with no `action` field passes validation and
then raises ValueError instead of defaulting to add: Python evaluates
`str(Action.add)` through `Enum.__str__` to the class-qualified name
"Action.add", which is not a member value of the enum. -/
theorem consume_fk_missing_action_raises :
    validate_import_obj catTest fkRecordNoAction = []
    ∧ consume_import_obj catTest fkRecordNoAction =
        .error (.valueError (pyQuote "Action.add" ++ " is not a valid Action"))
    ∧ consume_import_obj catTest fkRecordAdd = .ok catTestFk
    ∧ consume_import_obj catTestFk fkRecordRemove = .ok catTest := by
  decide

/-- C10: catalog_connection returns the PostgreSQL catalog exactly when
host, user, password and database are all supplied, ignoring any path; with
an incomplete PostgreSQL group it returns the SQLite catalog when a path is
supplied and raises AttributeError otherwise. -/
theorem catalog_connection_backend_selection
    (secret : String) (path : Option String) (host : Option String)
    (port : Option Int) (user password database : Option String) :
    (∀ h u pw db, host = some h → user = some u → password = some pw →
      database = some db →
      catalog_connection secret path host port user password database =
        .ok (.pg h port u pw db))
    ∧ ((host = none ∨ user = none ∨ password = none ∨ database = none) →
        (∀ p, path = some p →
          catalog_connection secret path host port user password database =
            .ok (.sqlite p))
        ∧ (path = none →
          catalog_connection secret path host port user password database =
            .error (.attributeError
              "None of Path or Postgres connection parameters are provided"))) := by
  constructor
  · intro h u pw db hh hu hp hd
    subst hh hu hp hd
    rfl
  · intro hcase
    rcases host with _ | h <;> rcases user with _ | u <;>
      rcases password with _ | pw <;> rcases database with _ | db
    all_goals try simp at hcase
    all_goals exact ⟨fun p hp => by subst hp; rfl, fun hp => by subst hp; rfl⟩

theorem catalog_connection_backend_selection_witness :
    catalog_connection "sec" (some "cat.db") (some "h") none (some "u") none none =
      .ok (.sqlite "cat.db") :=
  ((catalog_connection_backend_selection "sec" (some "cat.db") (some "h") none
      (some "u") none none).2 (Or.inr (Or.inr (Or.inl rfl)))).1 "cat.db" rfl

/-- C7: after add_foreign_key(c1, c2) succeeds, get_foreign_key on c1's
fqdn followed by c2's returns a match, while any 8-tuple other than that
pair (the reverse direction in particular) that was not already present
yields an empty result rather than an exception. -/
theorem add_foreign_key_lookup_round_trip
    (c : Catalog) (c1 c2 : CatColumn) (c' : Catalog)
    (hadd : c.add_foreign_key c1 c2 = .ok c') :
    (c'.get_foreign_key c1.database c1.schema c1.table c1.column
        c2.database c2.schema c2.table c2.column).isSome = true
    ∧ (∀ q : CatForeignKey, q ∉ c.fks →
        q ≠ { source := c1.fqdn, target := c2.fqdn } →
        c'.get_foreign_key q.source.1 q.source.2.1 q.source.2.2.1 q.source.2.2.2
          q.target.1 q.target.2.1 q.target.2.2.1 q.target.2.2.2 = none)
    ∧ (c1.fqdn ≠ c2.fqdn →
        ({ source := c2.fqdn, target := c1.fqdn } : CatForeignKey) ∉ c.fks →
        c'.get_foreign_key c2.database c2.schema c2.table c2.column
          c1.database c1.schema c1.table c1.column = none) := by
  have hc' : c' = { c with fks := c.fks ++ [{ source := c1.fqdn, target := c2.fqdn }] } := by
    unfold Catalog.add_foreign_key at hadd
    split at hadd
    · cases hadd
    · cases hadd
      rfl
  subst hc'
  have hnone : ∀ q : CatForeignKey, q ∉ c.fks →
      q ≠ { source := c1.fqdn, target := c2.fqdn } →
      Catalog.get_foreign_key
        { c with fks := c.fks ++ [{ source := c1.fqdn, target := c2.fqdn }] }
        q.source.1 q.source.2.1 q.source.2.2.1 q.source.2.2.2
        q.target.1 q.target.2.1 q.target.2.2.1 q.target.2.2.2 = none := by
    intro q hq hne
    rw [Catalog.get_foreign_key, List.find?_eq_none]
    intro y hy
    simp only [List.mem_append, List.mem_singleton] at hy
    simp only [beq_iff_eq]
    intro hyq
    have hqy : q = y := hyq.symm
    rcases hy with hy | hy
    · exact hq (hqy ▸ hy)
    · exact hne (hqy.trans hy)
  refine ⟨?_, hnone, fun hne hmem =>
    hnone { source := c2.fqdn, target := c1.fqdn } hmem
      (fun h => hne (congrArg CatForeignKey.source h).symm)⟩
  · rw [Catalog.get_foreign_key, List.find?_isSome]
    refine ⟨{ source := c1.fqdn, target := c2.fqdn }, by simp, ?_⟩
    simp [CatColumn.fqdn]

theorem add_foreign_key_lookup_round_trip_witness :
    (catTestFk.get_foreign_key "s1" "sc1" "t2" "t1c1" "s1" "sc1" "t1" "c1").isSome = true
    ∧ catTestFk.get_foreign_key "s1" "sc1" "t1" "c1" "s1" "sc1" "t2" "t1c1" = none
    ∧ catTestFk.get_foreign_key "s1" "sc1" "t3" "t1c1" "s1" "sc1" "t1" "c1" = none := by
  have h := add_foreign_key_lookup_round_trip catTest col_t2_t1c1 col_t1_c1 catTestFk rfl
  refine ⟨h.1, h.2.2 (by decide) (by decide), ?_⟩
  exact h.2.1 { source := ("s1", "sc1", "t3", "t1c1"), target := ("s1", "sc1", "t1", "c1") }
    (by decide) (by decide)

theorem importObjsFrom_of_validChain
    (stream : List Obj) :
    ∀ (c : Catalog) (k : Nat) (cf : Catalog),
      validChain c stream = some cf → importObjsFrom c k stream = ⟨[], cf, none⟩ := by
  induction stream with
  | nil =>
    intro c k cf h
    obtain rfl : c = cf := by injection h
    rfl
  | cons obj rest ih =>
    intro c k cf h
    simp only [validChain] at h
    by_cases hv : (validate_import_obj c obj).isEmpty
    · rw [if_pos hv] at h
      cases hcons : consume_import_obj c obj with
      | error e =>
        rw [hcons] at h
        cases h
      | ok c2 =>
        rw [hcons] at h
        simp only [importObjsFrom]
        rw [if_pos hv, hcons]
        exact ih c2 (k + 1) cf h
    · rw [if_neg hv] at h
      cases h

theorem importObjsFrom_abort
    (stream : List Obj) :
    ∀ (i : Nat) (c : Catalog) (k : Nat) (ci : Catalog) (o : Obj),
      validChain c (stream.take i) = some ci →
      stream[i]? = some o →
      validate_import_obj ci o ≠ [] →
      importObjsFrom c k stream =
        ⟨[.cannotImport (k + i), .contents o] ++
            (validate_import_obj ci o).map .validationError,
         ci, some (.integrityError ("import item " ++ toString (k + i) ++ " as errors"))⟩ := by
  induction stream with
  | nil =>
    intro i c k ci o hchain hio herr
    simp at hio
  | cons obj rest ih =>
    intro i c k ci o hchain hio herr
    cases i with
    | zero =>
      obtain rfl : c = ci := by injection hchain
      obtain rfl : obj = o := by simpa using hio
      simp only [importObjsFrom]
      rw [if_neg (by simpa [List.isEmpty_iff] using herr)]
      rfl
    | succ j =>
      rw [List.take_succ_cons] at hchain
      simp only [validChain] at hchain
      by_cases hv : (validate_import_obj c obj).isEmpty
      · rw [if_pos hv] at hchain
        cases hcons : consume_import_obj c obj with
        | error e =>
          rw [hcons] at hchain
          cases hchain
        | ok c2 =>
          rw [hcons] at hchain
          have hio2 : rest[j]? = some o := by simpa using hio
          simp only [importObjsFrom]
          rw [if_pos hv, hcons]
          show importObjsFrom c2 (k + 1) rest = _
          rw [ih j c2 (k + 1) ci o hchain hio2 herr]
          have harith : k + 1 + j = k + (j + 1) := by omega
          rw [harith]
      · rw [if_neg hv] at hchain
        cases hchain

theorem importObjsFrom_consume_error (stream : List Obj) :
    ∀ (i : Nat) (c : Catalog) (k : Nat) (ci : Catalog) (o : Obj) (e : PyError),
      validChain c (stream.take i) = some ci →
      stream[i]? = some o →
      validate_import_obj ci o = [] →
      consume_import_obj ci o = .error e →
      importObjsFrom c k stream = ⟨[], ci, some e⟩ := by
  induction stream with
  | nil =>
    intro i c k ci o e hchain hio hv hc
    simp at hio
  | cons obj rest ih =>
    intro i c k ci o e hchain hio hv hc
    cases i with
    | zero =>
      obtain rfl : c = ci := by injection hchain
      obtain rfl : obj = o := by simpa using hio
      simp only [importObjsFrom, hv, List.isEmpty_nil, if_true, hc]
    | succ j =>
      rw [List.take_succ_cons] at hchain
      simp only [validChain] at hchain
      by_cases hvv : (validate_import_obj c obj).isEmpty
      · rw [if_pos hvv] at hchain
        cases hcons : consume_import_obj c obj with
        | error e2 =>
          rw [hcons] at hchain
          cases hchain
        | ok c2 =>
          rw [hcons] at hchain
          have hio2 : rest[j]? = some o := by simpa using hio
          simp only [importObjsFrom]
          rw [if_pos hvv, hcons]
          exact ih j c2 (k + 1) ci o e hchain hio2 hv hc
      · rw [if_neg hvv] at hchain
        cases hchain

/-- C1 (amended): on the first record whose validation (in the state
reached by validating and applying every earlier record) returns errors,
the import stream applies exactly the records before it, logs every
validation error of that record, raises IntegrityError, and touches no
later record.  When every record validates empty and every application via
consume_import_obj succeeds, all records are applied in order and no error
is raised.  Empty validation alone does not guarantee application: a
record that validates empty but whose application raises aborts the
stream with that exception, keeping the prior records applied and logging
nothing. -/
theorem import_stream_first_invalid_aborts :
    (∀ (c : Catalog) (stream : List Obj) (i : Nat) (ci : Catalog) (o : Obj),
      validChain c (stream.take i) = some ci →
      stream[i]? = some o →
      validate_import_obj ci o ≠ [] →
      import_from_object_stream c stream =
        ⟨[.cannotImport i, .contents o] ++
            (validate_import_obj ci o).map .validationError,
         ci, some (.integrityError ("import item " ++ toString i ++ " as errors"))⟩
        ∧ import_from_object_stream c stream =
            import_from_object_stream c (stream.take (i + 1)))
    ∧ (∀ (c : Catalog) (stream : List Obj) (i : Nat) (ci : Catalog) (o : Obj) (e : PyError),
        validChain c (stream.take i) = some ci →
        stream[i]? = some o →
        validate_import_obj ci o = [] →
        consume_import_obj ci o = .error e →
        import_from_object_stream c stream = ⟨[], ci, some e⟩)
    ∧ (∀ (c : Catalog) (stream : List Obj) (cf : Catalog),
        validChain c stream = some cf →
        import_from_object_stream c stream = ⟨[], cf, none⟩) := by
  refine ⟨?_, ?_, ?_⟩
  · intro c stream i ci o hchain hio herr
    have h1 := importObjsFrom_abort stream i c 0 ci o hchain hio herr
    have hio2 : (stream.take (i + 1))[i]? = some o := by
      rw [List.getElem?_take, if_pos (by omega)]
      exact hio
    have h2 := importObjsFrom_abort (stream.take (i + 1)) i c 0 ci o
      (by rw [List.take_take]; rw [show i ⊓ (i + 1) = i by omega]; exact hchain)
      hio2 herr
    constructor
    · simpa [import_from_object_stream] using h1
    · simp only [import_from_object_stream]
      rw [h1, h2]
  · intro c stream i ci o e hchain hio hv hc
    exact importObjsFrom_consume_error stream i c 0 ci o e hchain hio hv hc
  · intro c stream cf h
    exact importObjsFrom_of_validChain stream c 0 cf h

theorem import_stream_first_invalid_aborts_witness :
    import_from_object_stream cat0 [badSchemaRecord] =
      ⟨[.cannotImport 0, .contents badSchemaRecord] ++
          (validate_import_obj cat0 badSchemaRecord).map .validationError,
       cat0, some (.integrityError ("import item " ++ toString 0 ++ " as errors"))⟩ :=
  (import_stream_first_invalid_aborts.1 cat0 [badSchemaRecord] 0 cat0 badSchemaRecord
    rfl rfl (by decide)).1

/-- C1 counterexample: in the stream [fkRecordAdd, fkRecordAdd] every
record validates empty along the run — foreign-key validation never checks
whether the pair already exists — yet the second record is never applied:
its application raises ConstraintViolation (re-adding an identical pair is
a uniqueness violation) and the stream ends with only the first record's
mutation in place. -/
theorem import_all_valid_counterexample :
    validate_import_obj catTest fkRecordAdd = []
    ∧ consume_import_obj catTest fkRecordAdd = .ok catTestFk
    ∧ validate_import_obj catTestFk fkRecordAdd = []
    ∧ consume_import_obj catTestFk fkRecordAdd =
        .error (.constraintViolation "foreign key already exists")
    ∧ import_from_object_stream catTest [fkRecordAdd, fkRecordAdd] =
        ⟨[], catTestFk, some (.constraintViolation "foreign key already exists")⟩ := by
  decide

theorem mem_insertBy {α : Type} (le : α → α → Bool) (a x : α) (l : List α) :
    x ∈ insertBy le a l ↔ x = a ∨ x ∈ l := by
  induction l with
  | nil => simp [insertBy]
  | cons b l ih =>
    simp only [insertBy]
    split
    · simp [List.mem_cons]
    · rw [List.mem_cons, ih, List.mem_cons]
      tauto

theorem mem_sortBy {α : Type} (le : α → α → Bool) (x : α) (l : List α) :
    x ∈ sortBy le l ↔ x ∈ l := by
  induction l with
  | nil => simp [sortBy]
  | cons a l ih =>
    simp only [sortBy]
    rw [mem_insertBy, ih, List.mem_cons]

theorem mem_distinct {α : Type} [DecidableEq α] (x : α) (l : List α) :
    x ∈ distinct l ↔ x ∈ l := by
  induction l with
  | nil => simp [distinct]
  | cons a l ih =>
    simp only [distinct]
    by_cases hmem : a ∈ l
    · rw [if_pos hmem, ih, List.mem_cons]
      constructor
      · exact Or.inr
      · rintro (rfl | h)
        · exact hmem
        · exact h
    · rw [if_neg hmem, List.mem_cons, List.mem_cons, ih]

/-- C9: the table search is exactly the projection of `search_column` to
the set of distinct (source, schema, table) triples, emitted sorted; every
emitted triple is witnessed by a matching column, so a table without
columns never appears. -/
theorem search_tables_projection :
    (∀ (c : Catalog) (column_pat table_pat schema_pat source_pat : String),
      search_tables c column_pat table_pat schema_pat source_pat =
        sortBy tripleLe (distinct
          ((c.search_column column_pat table_pat schema_pat source_pat).map
            fun col => (col.database, col.schema, col.table))))
    ∧ (∀ (c : Catalog) (column_pat table_pat schema_pat source_pat : String)
        (t : String × String × String),
        t ∈ search_tables c column_pat table_pat schema_pat source_pat →
        ∃ col, col ∈ c.columns ∧
          (likeMatch source_pat col.database && likeMatch schema_pat col.schema &&
            likeMatch table_pat col.table && likeMatch column_pat col.column) = true
          ∧ (col.database, col.schema, col.table) = t) := by
  constructor
  · intro c cp tp sp src
    rfl
  · intro c cp tp sp src t ht
    simp only [search_tables] at ht
    rw [mem_sortBy, mem_distinct, List.mem_map] at ht
    obtain ⟨col, hcol, hproj⟩ := ht
    simp only [Catalog.search_column, List.mem_filter] at hcol
    exact ⟨col, hcol.1, hcol.2, hproj⟩

theorem search_tables_projection_witness :
    ∃ col, col ∈ catTest.columns ∧
      (likeMatch "%" col.database && likeMatch "%" col.schema &&
        likeMatch "%" col.table && likeMatch "%" col.column) = true
      ∧ (col.database, col.schema, col.table) = ("s1", "sc1", "t1") :=
  search_tables_projection.2 catTest "%" "%" "%" "%" ("s1", "sc1", "t1") (by decide)

theorem validate_column_missing_eq_nil_iff (o : Obj) :
    _validate_column_missing o = [] ↔
      (o.get? "database").isSome ∧ (o.get? "schema").isSome ∧
        (o.get? "table").isSome ∧ (o.get? "column").isSome ∧
        (o.get? "data_type").isSome ∧ (o.get? "sort_order").isSome := by
  unfold _validate_column_missing
  cases o.get? "database" <;> cases o.get? "schema" <;> cases o.get? "table" <;>
    cases o.get? "column" <;> cases o.get? "data_type" <;> cases o.get? "sort_order" <;>
    simp

theorem validate_column_eq_missing (c : Catalog) (o : Obj)
    (hm : _validate_column_missing o ≠ []) :
    _validate_column c o = _validate_column_missing o := by
  have hE : (_validate_column_missing o).isEmpty = false :=
    Bool.eq_false_iff.mpr (fun h => hm (List.isEmpty_iff.mp h))
  simp only [_validate_column, hE, Bool.not_false, if_true]

theorem validate_column_resolved (c : Catalog) (o : Obj) (db sc tb cl : PyVal)
    (hm : _validate_column_missing o = [])
    (hdb : o.get? "database" = some db) (hsc : o.get? "schema" = some sc)
    (htb : o.get? "table" = some tb) (hcl : o.get? "column" = some cl) :
    _validate_column c o =
      (match c.get_column db sc tb cl with
       | some _ =>
         ["column <" ++ db.pyFormat ++ ", " ++ sc.pyFormat ++ ", " ++ tb.pyFormat ++
           ", " ++ cl.pyFormat ++ "> is already defined"]
       | none => []) := by
  simp only [_validate_column, hm, List.isEmpty_nil, Bool.not_true]
  rw [if_neg (by simp)]
  rw [hdb, hsc, htb, hcl]

/-- C8: column-record validation collects one error per missing required
field among database, schema, table, column, data_type, sort_order; when
all six are present and the addressed column exists it returns exactly the
single already-defined error; the list is empty exactly when all six are
present and the column does not exist. -/
theorem validate_column_error_collection :
    (∀ (c : Catalog) (o : Obj),
      (o.get? "database" = none ∨ o.get? "schema" = none ∨ o.get? "table" = none ∨
        o.get? "column" = none ∨ o.get? "data_type" = none ∨ o.get? "sort_order" = none) →
      _validate_column c o = _validate_column_missing o ∧ _validate_column c o ≠ [])
    ∧ (∀ (c : Catalog) (o : Obj) (db sc tb cl : PyVal),
        o.get? "database" = some db → o.get? "schema" = some sc →
        o.get? "table" = some tb → o.get? "column" = some cl →
        (o.get? "data_type").isSome → (o.get? "sort_order").isSome →
        (c.get_column db sc tb cl).isSome →
        _validate_column c o =
          ["column <" ++ db.pyFormat ++ ", " ++ sc.pyFormat ++ ", " ++ tb.pyFormat ++
            ", " ++ cl.pyFormat ++ "> is already defined"])
    ∧ (∀ (c : Catalog) (o : Obj),
        _validate_column c o = [] ↔
          ∃ db sc tb cl,
            o.get? "database" = some db ∧ o.get? "schema" = some sc ∧
            o.get? "table" = some tb ∧ o.get? "column" = some cl ∧
            (o.get? "data_type").isSome ∧ (o.get? "sort_order").isSome ∧
            c.get_column db sc tb cl = none) := by
  refine ⟨?_, ?_, ?_⟩
  · intro c o hmiss
    have hm : _validate_column_missing o ≠ [] := by
      intro h
      have hall := (validate_column_missing_eq_nil_iff o).mp h
      rcases hmiss with hx | hx | hx | hx | hx | hx <;>
        simp [hx] at hall
    have heq := validate_column_eq_missing c o hm
    exact ⟨heq, heq ▸ hm⟩
  · intro c o db sc tb cl hdb hsc htb hcl hdt hso hcol
    have hm : _validate_column_missing o = [] := by
      rw [validate_column_missing_eq_nil_iff]
      exact ⟨by rw [hdb]; rfl, by rw [hsc]; rfl, by rw [htb]; rfl, by rw [hcl]; rfl, hdt, hso⟩
    rw [validate_column_resolved c o db sc tb cl hm hdb hsc htb hcl]
    obtain ⟨found, hfound⟩ := Option.isSome_iff_exists.mp hcol
    rw [hfound]
  · intro c o
    constructor
    · intro hval
      by_cases hm : _validate_column_missing o = []
      · obtain ⟨h1, h2, h3, h4, h5, h6⟩ := (validate_column_missing_eq_nil_iff o).mp hm
        obtain ⟨db, hdb⟩ := Option.isSome_iff_exists.mp h1
        obtain ⟨sc, hsc⟩ := Option.isSome_iff_exists.mp h2
        obtain ⟨tb, htb⟩ := Option.isSome_iff_exists.mp h3
        obtain ⟨cl, hcl⟩ := Option.isSome_iff_exists.mp h4
        refine ⟨db, sc, tb, cl, hdb, hsc, htb, hcl, h5, h6, ?_⟩
        cases hcol : c.get_column db sc tb cl with
        | none => rfl
        | some found =>
          rw [validate_column_resolved c o db sc tb cl hm hdb hsc htb hcl, hcol] at hval
          simp at hval
      · rw [validate_column_eq_missing c o hm] at hval
        exact absurd hval hm
    · rintro ⟨db, sc, tb, cl, hdb, hsc, htb, hcl, h5, h6, hcol⟩
      have hm : _validate_column_missing o = [] := by
        rw [validate_column_missing_eq_nil_iff]
        exact ⟨by rw [hdb]; rfl, by rw [hsc]; rfl, by rw [htb]; rfl, by rw [hcl]; rfl, h5, h6⟩
      rw [validate_column_resolved c o db sc tb cl hm hdb hsc htb hcl, hcol]

/-- A column record addressing the already-present column `s1:sc1:t1:c1`. -/
def colRecordDup : Obj :=
  [("type", .str "column"), ("database", .str "s1"), ("schema", .str "sc1"),
   ("table", .str "t1"), ("column", .str "c1"),
   ("data_type", .str "text"), ("sort_order", .int 1)]

theorem validate_column_error_collection_witness :
    _validate_column catTest colRecordDup =
      ["column <s1, sc1, t1, c1> is already defined"] :=
  (validate_column_error_collection.2.1 catTest colRecordDup
    (.str "s1") (.str "sc1") (.str "t1") (.str "c1")
    rfl rfl rfl rfl (by decide) (by decide) (by decide)).trans (by decide)

theorem find?_append_of_none {α : Type} (p : α → Bool) (l₁ l₂ : List α)
    (h : l₁.find? p = none) : (l₁ ++ l₂).find? p = l₂.find? p := by
  induction l₁ with
  | nil => rfl
  | cons a l ih =>
    rw [List.find?_cons] at h
    rw [List.cons_append, List.find?_cons]
    cases hpa : p a
    · rw [hpa] at h
      exact ih h
    · rw [hpa] at h
      cases h

theorem validate_schema_missing_eq_nil_iff (o : Obj) :
    _validate_schema_missing o = [] ↔
      (o.get? "database").isSome ∧ (o.get? "schema").isSome := by
  unfold _validate_schema_missing
  cases o.get? "database" <;> cases o.get? "schema" <;> simp

theorem validate_schema_eq_missing (c : Catalog) (o : Obj)
    (hm : _validate_schema_missing o ≠ []) :
    _validate_schema c o = _validate_schema_missing o := by
  have hE : (_validate_schema_missing o).isEmpty = false :=
    Bool.eq_false_iff.mpr (fun h => hm (List.isEmpty_iff.mp h))
  simp only [_validate_schema, hE, Bool.not_false, if_true]

theorem validate_schema_resolved (c : Catalog) (o : Obj) (db sc : PyVal)
    (hm : _validate_schema_missing o = [])
    (hdb : o.get? "database" = some db) (hsc : o.get? "schema" = some sc) :
    _validate_schema c o =
      (match c.get_schema db sc with
       | some _ =>
         ["schema <" ++ db.pyFormat ++ ", " ++ sc.pyFormat ++ "> is already defined"]
       | none => []) := by
  simp only [_validate_schema, hm, List.isEmpty_nil, Bool.not_true]
  rw [if_neg (by simp)]
  rw [hdb, hsc]

theorem validate_dispatch_schema (c : Catalog) (o : Obj)
    (hty : o.get? "type" = some (.str "schema")) :
    validate_import_obj c o = _validate_schema c o := by
  simp only [validate_import_obj, hty]
  rw [if_pos trivial]
  rw [if_neg (by decide)]

theorem consume_schema_eq (c : Catalog) (o : Obj) (dbv scv : PyVal)
    (hty : o.get? "type" = some (.str "schema"))
    (hdb : o.get? "database" = some dbv)
    (hsc : o.get? "schema" = some scv) :
    consume_import_obj c o =
      (match c.get_source dbv with
       | none => .error .noResultFound
       | some source =>
         match scv.asName with
         | .error e => .error e
         | .ok sc => c.add_schema sc source) := by
  simp only [consume_import_obj, hty]
  rw [if_pos trivial]
  rw [if_neg (by decide)]
  simp only [objField, hdb, hsc, fromOpt, pyBind]
  cases hg : c.get_source dbv with
  | none => rfl
  | some source =>
    cases scv.asName with
    | error e => rfl
    | ok sc => rfl

theorem importObjsFrom_cons_ok (c c2 : Catalog) (k : Nat) (o : Obj) (rest : List Obj)
    (hv : validate_import_obj c o = [])
    (hc : consume_import_obj c o = .ok c2) :
    importObjsFrom c k (o :: rest) = importObjsFrom c2 (k + 1) rest := by
  simp only [importObjsFrom, hv, List.isEmpty_nil, if_true, hc]

theorem importObjsFrom_cons_invalid (c : Catalog) (k : Nat) (o : Obj) (rest : List Obj)
    (hv : validate_import_obj c o ≠ []) :
    importObjsFrom c k (o :: rest) =
      ⟨[.cannotImport k, .contents o] ++
          (validate_import_obj c o).map .validationError,
       c, some (.integrityError ("import item " ++ toString k ++ " as errors"))⟩ := by
  simp only [importObjsFrom]
  rw [if_neg (by simpa [List.isEmpty_iff] using hv)]

/-- C6: schema-record validation returns one error per missing field among
database and schema; with both present and the pair already catalogued it
returns exactly the single already-defined error; hence importing the same
valid schema record twice yields the validation error on the second record
and the stream aborts with IntegrityError. -/
theorem validate_schema_errors_and_reimport :
    (∀ (c : Catalog) (o : Obj),
      (o.get? "database" = none ∨ o.get? "schema" = none) →
      _validate_schema c o = _validate_schema_missing o ∧ _validate_schema c o ≠ [])
    ∧ (∀ (c : Catalog) (o : Obj) (db sc : PyVal),
        o.get? "database" = some db → o.get? "schema" = some sc →
        (c.get_schema db sc).isSome →
        _validate_schema c o =
          ["schema <" ++ db.pyFormat ++ ", " ++ sc.pyFormat ++ "> is already defined"])
    ∧ (∀ (c : Catalog) (db sc srcName : String),
        c.get_source (.str db) = some srcName →
        c.get_schema (.str db) (.str sc) = none →
        ∃ c', consume_import_obj c (schemaRecord db sc) = .ok c' ∧
          import_from_object_stream c [schemaRecord db sc, schemaRecord db sc] =
            ⟨[.cannotImport 1, .contents (schemaRecord db sc),
              .validationError ("schema <" ++ db ++ ", " ++ sc ++ "> is already defined")],
             c', some (.integrityError ("import item " ++ toString 1 ++ " as errors"))⟩) := by
  refine ⟨?_, ?_, ?_⟩
  · intro c o hmiss
    have hm : _validate_schema_missing o ≠ [] := by
      intro h
      have hall := (validate_schema_missing_eq_nil_iff o).mp h
      rcases hmiss with hx | hx <;> simp [hx] at hall
    have heq := validate_schema_eq_missing c o hm
    exact ⟨heq, heq ▸ hm⟩
  · intro c o db sc hdb hsc hfound
    have hm : _validate_schema_missing o = [] := by
      rw [validate_schema_missing_eq_nil_iff]
      exact ⟨by rw [hdb]; rfl, by rw [hsc]; rfl⟩
    rw [validate_schema_resolved c o db sc hm hdb hsc]
    obtain ⟨found, hf⟩ := Option.isSome_iff_exists.mp hfound
    rw [hf]
  · intro c db sc srcName hsrc hsch
    have hnone : ∀ p ∈ c.schemas,
        ¬(matchesName (.str db) p.1 && matchesName (.str sc) p.2) = true :=
      List.find?_eq_none.mp (by simpa [Catalog.get_schema] using hsch)
    have hcidb : ciEq db srcName = true := by
      have hfs := List.find?_some (by simpa [Catalog.get_source] using hsrc)
      simpa [matchesName] using hfs
    have hadd : c.schemas.any (fun p => p.1 == srcName && ciEq p.2 sc) = false := by
      rw [List.any_eq_false]
      intro p hp hpt
      rw [Bool.and_eq_true, beq_iff_eq] at hpt
      obtain ⟨hp1, hp2⟩ := hpt
      apply hnone p hp
      rw [Bool.and_eq_true]
      constructor
      · simp only [matchesName]
        rw [hp1]
        exact hcidb
      · simp only [matchesName]
        unfold ciEq at hp2 ⊢
        rw [beq_iff_eq] at hp2 ⊢
        exact hp2.symm
    have hcons : consume_import_obj c (schemaRecord db sc) =
        .ok { c with schemas := c.schemas ++ [(srcName, sc)] } := by
      rw [consume_schema_eq c (schemaRecord db sc) (.str db) (.str sc) rfl rfl rfl]
      rw [hsrc]
      show c.add_schema sc srcName = _
      unfold Catalog.add_schema
      rw [hadd]
      rw [if_neg (by simp)]
    refine ⟨{ c with schemas := c.schemas ++ [(srcName, sc)] }, hcons, ?_⟩
    have hval1 : validate_import_obj c (schemaRecord db sc) = [] := by
      rw [validate_dispatch_schema c (schemaRecord db sc) rfl]
      rw [validate_schema_resolved c (schemaRecord db sc) (.str db) (.str sc) rfl rfl rfl]
      rw [hsch]
    have hfind : Catalog.get_schema { c with schemas := c.schemas ++ [(srcName, sc)] }
        (.str db) (.str sc) = some (srcName, sc) := by
      unfold Catalog.get_schema
      rw [find?_append_of_none _ _ _ (by simpa [Catalog.get_schema] using hsch)]
      rw [List.find?_cons_of_pos]
      rw [Bool.and_eq_true]
      exact ⟨by simpa [matchesName] using hcidb, by simp [matchesName, ciEq]⟩
    have hval2 : validate_import_obj { c with schemas := c.schemas ++ [(srcName, sc)] }
        (schemaRecord db sc) =
        ["schema <" ++ db ++ ", " ++ sc ++ "> is already defined"] := by
      rw [validate_dispatch_schema _ (schemaRecord db sc) rfl]
      rw [validate_schema_resolved _ (schemaRecord db sc) (.str db) (.str sc) rfl rfl rfl]
      rw [hfind]
      rfl
    show importObjsFrom c 0 [schemaRecord db sc, schemaRecord db sc] = _
    rw [importObjsFrom_cons_ok c _ 0 _ _ hval1 hcons]
    rw [importObjsFrom_cons_invalid _ 1 _ [] (by rw [hval2]; simp)]
    rw [hval2]
    rfl

/-- A catalog holding only the source `s1`. -/
def catSrcOnly : Catalog := ⟨["s1"], [], [], [], []⟩

theorem validate_schema_errors_and_reimport_witness :
    ∃ c', consume_import_obj catSrcOnly (schemaRecord "s1" "sc1") = .ok c' ∧
      import_from_object_stream catSrcOnly
          [schemaRecord "s1" "sc1", schemaRecord "s1" "sc1"] =
        ⟨[.cannotImport 1, .contents (schemaRecord "s1" "sc1"),
          .validationError ("schema <" ++ "s1" ++ ", " ++ "sc1" ++ "> is already defined")],
         c', some (.integrityError ("import item " ++ toString 1 ++ " as errors"))⟩ :=
  validate_schema_errors_and_reimport.2.2 catSrcOnly "s1" "sc1" "s1" (by decide) (by decide)

/-- A stanza carrying exactly the four name fields. -/
def namesStanza (db sc tb cl : String) : List (String × PyLeaf) :=
  [("database", .str db), ("schema", .str sc), ("table", .str tb), ("column", .str cl)]

theorem consume_fk_add_eq (c : Catalog) (o : Obj)
    (srcSt tgtSt : List (String × PyLeaf))
    (sdb ssc stb scl tdb tsc ttb tcl : PyLeaf)
    (hty : o.get? "type" = some (.str "foreign_key"))
    (hsrc : o.get? "source" = some (.dict srcSt))
    (htgt : o.get? "target" = some (.dict tgtSt))
    (hact : o.get? "action" = some (.str "add"))
    (h1 : srcSt.lookup "database" = some sdb) (h2 : srcSt.lookup "schema" = some ssc)
    (h3 : srcSt.lookup "table" = some stb) (h4 : srcSt.lookup "column" = some scl)
    (h5 : tgtSt.lookup "database" = some tdb) (h6 : tgtSt.lookup "schema" = some tsc)
    (h7 : tgtSt.lookup "table" = some ttb) (h8 : tgtSt.lookup "column" = some tcl) :
    consume_import_obj c o =
      (match c.get_column sdb.toVal ssc.toVal stb.toVal scl.toVal with
       | none => .error .noResultFound
       | some source_column =>
         match c.get_column tdb.toVal tsc.toVal ttb.toVal tcl.toVal with
         | none => .error .noResultFound
         | some target_column => c.add_foreign_key source_column target_column) := by
  simp only [consume_import_obj, hty]
  rw [if_pos trivial]
  simp only [stanzaField, hsrc, htgt, h1, h2, h3, h4, h5, h6, h7, h8, hact,
    pyBind, fromOpt]
  cases c.get_column sdb.toVal ssc.toVal stb.toVal scl.toVal with
  | none => rfl
  | some source_column =>
    cases c.get_column tdb.toVal tsc.toVal ttb.toVal tcl.toVal with
    | none => rfl
    | some target_column => rfl

/-- C5 (amended): export_format renders a ForeignKey as the
{type, source, target} record built from the stored columns' fully
qualified names, attaches the `action` key exactly when an action is
passed, raises NotImplementedError on every other entity kind, and
reproduces the source and target dicts of the foreign_key record that
created the key whenever the record's stanzas carry the four name fields
with the stored columns' exact spelling; case-insensitive resolution makes
exact reproduction fail for records spelled with a different case. -/
theorem export_format_shape_round_trip :
    (∀ f : CatForeignKey,
      export_format (.fk f) none =
        .ok [("type", .str "foreign_key"), ("source", fqdnStanza f.source),
             ("target", fqdnStanza f.target)]
      ∧ ∀ a : Action, export_format (.fk f) (some a) =
          .ok [("type", .str "foreign_key"), ("source", fqdnStanza f.source),
               ("target", fqdnStanza f.target), ("action", .str a.value)])
    ∧ (∀ (e : CatObject) (act : Option Action), e.isFk = false →
        ∃ m, export_format e act = .error (.notImplementedError m))
    ∧ (∀ (c : Catalog) (o : Obj) (sc tc : CatColumn),
        o.get? "type" = some (.str "foreign_key") →
        o.get? "source" = some (.dict (namesStanza sc.database sc.schema sc.table sc.column)) →
        o.get? "target" = some (.dict (namesStanza tc.database tc.schema tc.table tc.column)) →
        o.get? "action" = some (.str "add") →
        c.get_column (.str sc.database) (.str sc.schema) (.str sc.table) (.str sc.column) =
          some sc →
        c.get_column (.str tc.database) (.str tc.schema) (.str tc.table) (.str tc.column) =
          some tc →
        consume_import_obj c o = c.add_foreign_key sc tc
        ∧ ∀ c', c.add_foreign_key sc tc = .ok c' →
            c'.fks = c.fks ++ [{ source := sc.fqdn, target := tc.fqdn }]
            ∧ export_format (.fk { source := sc.fqdn, target := tc.fqdn }) none =
                .ok [("type", .str "foreign_key"),
                     ("source", .dict (namesStanza sc.database sc.schema sc.table sc.column)),
                     ("target", .dict (namesStanza tc.database tc.schema tc.table tc.column))]) := by
  refine ⟨?_, ?_, ?_⟩
  · intro f
    exact ⟨rfl, fun a => rfl⟩
  · intro e act hnotfk
    cases e with
    | fk f => cases hnotfk
    | sourceEnt n => exact ⟨_, rfl⟩
    | schemaEnt s => exact ⟨_, rfl⟩
    | tableEnt t => exact ⟨_, rfl⟩
    | columnEnt col => exact ⟨_, rfl⟩
  · intro c o sc tc hty hsrc htgt hact hcol1 hcol2
    constructor
    · rw [consume_fk_add_eq c o
        (namesStanza sc.database sc.schema sc.table sc.column)
        (namesStanza tc.database tc.schema tc.table tc.column)
        (.str sc.database) (.str sc.schema) (.str sc.table) (.str sc.column)
        (.str tc.database) (.str tc.schema) (.str tc.table) (.str tc.column)
        hty hsrc htgt hact rfl rfl rfl rfl rfl rfl rfl rfl]
      simp only [PyLeaf.toVal]
      rw [hcol1, hcol2]
    · intro c' hok
      have hfks : c' = { c with fks := c.fks ++ [{ source := sc.fqdn, target := tc.fqdn }] } := by
        unfold Catalog.add_foreign_key at hok
        split at hok
        · cases hok
        · cases hok
          rfl
      subst hfks
      exact ⟨rfl, rfl⟩

theorem export_format_shape_round_trip_witness :
    consume_import_obj catTest fkRecordAdd =
      catTest.add_foreign_key col_t2_t1c1 col_t1_c1
    ∧ export_format (.fk { source := col_t2_t1c1.fqdn, target := col_t1_c1.fqdn }) none =
        .ok [("type", .str "foreign_key"),
             ("source", .dict fkStanzaSource), ("target", .dict fkStanzaTarget)] := by
  have h := export_format_shape_round_trip.2.2 catTest fkRecordAdd col_t2_t1c1 col_t1_c1
    rfl rfl rfl rfl (by decide) (by decide)
  exact ⟨h.1, (h.2 catTestFk (by decide)).2⟩

/-- C5 counterexample: a foreign_key record whose source stanza spells the
database as `S1` still validates and creates the foreign key, yet
`export_format` renders the stored spelling `s1`, so the exported source
dict is not equal (as a Python dict) to the one in the creating record. -/
theorem export_round_trip_case_counterexample :
    validate_import_obj catTest fkRecordUpper = []
    ∧ consume_import_obj catTest fkRecordUpper = .ok catTestFk
    ∧ export_format (.fk { source := col_t2_t1c1.fqdn, target := col_t1_c1.fqdn }) none =
        .ok [("type", .str "foreign_key"),
             ("source", fqdnStanza col_t2_t1c1.fqdn),
             ("target", fqdnStanza col_t1_c1.fqdn)]
    ∧ fkRecordUpper.get? "source" =
        some (.dict [("database", .str "S1"), ("schema", .str "sc1"),
                     ("table", .str "t2"), ("column", .str "t1c1")])
    ∧ PyVal.pyEq (fqdnStanza col_t2_t1c1.fqdn)
        (.dict [("database", .str "S1"), ("schema", .str "sc1"),
                ("table", .str "t2"), ("column", .str "t1c1")]) = false := by
  decide

end Dbcat
